import Mathlib

/-!
# Double-buffered shared-memory surface manager (`src/wayland.c`)

A shallow embedding of `wayland.c`.  The module-level variables of the C file
become the fields of `State`; every call that leaves the file (system calls,
libwayland, cairo, `printf`) is recorded, in program order, in `State.trace`.
The environment's answers (system-call return values, delivered protocol
events) are explicit arguments.
-/

namespace Wayland

/-! ## Machine integers -/

/-- Conversion of a mathematical integer to `int32_t` (two's complement
wrap-around, as performed by the target on conversion and on overflow). -/
def toInt32 (x : Int) : Int := (x + 2 ^ 31) % 2 ^ 32 - 2 ^ 31

/-- Conversion to `size_t` (64-bit, LP64 Linux). -/
def toSizeT (x : Int) : Int := x % 2 ^ 64

/-- Value of `sizeof(uint32_t)`. -/
def sizeof_uint32_t : Int := 4

/-- Value of `MAP_FAILED`, that is `(void *) -1`. -/
def MAP_FAILED : Int := -1

/-! ## Data model -/

/-- A proxy returned by `wl_registry_bind`: it remembers the numeric name and
the version of the global it was bound to. -/
structure wl_proxy where
  name : Nat
  version : Nat
deriving DecidableEq, Repr

/-- The C `struct buffer` (lines 42-53).  Object pointers are handles, `0`
being `NULL`; `data` is an address. -/
structure buffer where
  fd : Int
  data : Int
  width : Int
  stride : Int
  height : Int
  capacity : Int
  cairo_surface : Nat
  cairo : Nat
  wl_shm_pool : Nat
  wl_buffer : Nat
deriving DecidableEq, Repr

/-- The initialiser `{0}` of a `struct buffer`. -/
def buffer.zero : buffer :=
  { fd := 0, data := 0, width := 0, stride := 0, height := 0, capacity := 0,
    cairo_surface := 0, cairo := 0, wl_shm_pool := 0, wl_buffer := 0 }

/-- Calls that leave `wayland.c`, with their arguments (and, for calls whose
result the code uses, the result).  `draw` stands for the drawing routine of
lines 192-226, which acts only on the cairo context it is given.
`enter_init_buffer` and `enter_fini_buffer` mark the entry into
`init_buffer` and `fini_buffer` for a slot. -/
inductive Call where
  | memfd_create (ret : Int)
  | ftruncate (fd : Int) (length : Int) (ret : Int)
  | close (fd : Int)
  | mmap (length : Int) (fd : Int) (ret : Int)
  | munmap (addr : Int) (length : Int)
  | cairo_image_surface_create_for_data (data : Int) (width height stride : Int) (ret : Nat)
  | cairo_create (surface : Nat) (ret : Nat)
  | cairo_destroy (cairo : Nat)
  | cairo_surface_destroy (surface : Nat)
  | wl_shm_create_pool (wl_shm : Option wl_proxy) (fd : Int) (size : Int) (ret : Nat)
  | wl_shm_pool_create_buffer (pool : Nat) (width height stride : Int) (ret : Nat)
  | wl_buffer_destroy (wl_buffer : Nat)
  | wl_shm_pool_destroy (pool : Nat)
  | wl_registry_bind (name : Nat) (interface : String) (version : Nat)
  | xdg_shell_pong (xdg_shell : Option wl_proxy) (serial : Nat)
  | xdg_surface_ack_configure (xdg_surface : Nat) (serial : Nat)
  | printf (text : String)
  | wl_display_connect (ok : Bool)
  | wl_display_get_registry (ok : Bool)
  | wl_registry_add_listener
  | wl_display_dispatch
  | xdg_shell_add_listener (xdg_shell : Option wl_proxy)
  | xdg_shell_use_unstable_version (xdg_shell : Option wl_proxy)
  | wl_compositor_create_surface (wl_compositor : Option wl_proxy) (ret : Nat)
  | xdg_shell_get_xdg_surface (xdg_shell : Option wl_proxy) (wl_surface : Nat) (ret : Nat)
  | xdg_surface_add_listener (xdg_surface : Nat)
  | xdg_surface_set_title (xdg_surface : Nat) (title : String)
  | xdg_surface_set_maximized (xdg_surface : Nat)
  | wl_display_roundtrip
  | draw (cairo : Nat)
  | wl_surface_attach (wl_surface : Nat) (wl_buffer : Nat)
  | wl_surface_commit (wl_surface : Nat)
  | wl_surface_damage (wl_surface : Nat) (width height : Int)
  | xdg_surface_set_window_geometry (xdg_surface : Nat) (width height : Int)
  | xdg_surface_destroy (xdg_surface : Nat)
  | wl_surface_destroy (wl_surface : Nat)
  | xdg_shell_destroy (xdg_shell : Option wl_proxy)
  | wl_shm_destroy (wl_shm : Option wl_proxy)
  | wl_compositor_destroy (wl_compositor : Option wl_proxy)
  | wl_registry_destroy
  | wl_display_disconnect
  | enter_init_buffer (slot : Nat)
  | enter_fini_buffer (slot : Nat)
deriving DecidableEq, Repr

/-- The module-level variables of `wayland.c` (lines 34-40, 55-56), the
termination signal of `exit_code.h`, and the part of the environment the
code acts on: the descriptor table, the live mappings, the handle allocator
and the record of outgoing calls.  `back_buffer` holds the index `i` of the
slot `&buffers[i]` it points to. `fault` records that a `NULL` handle was
handed to libwayland, after which nothing more is executed. -/
structure State where
  wl_compositor : Option wl_proxy
  wl_shm : Option wl_proxy
  xdg_shell : Option wl_proxy
  xdg_surface : Nat
  current_width : Int
  current_height : Int
  buffers0 : buffer
  buffers1 : buffer
  back_buffer : Nat
  exiting : Bool
  exit_code : Nat
  fds : List Int
  maps : List (Int × Int)
  next_handle : Nat
  trace : List Call
  fault : Bool
deriving DecidableEq, Repr

/-- The state at program start: the static initialisers of lines 34-40 and
55-56, no termination signal, nothing open, nothing called. -/
def State.initial : State :=
  { wl_compositor := none, wl_shm := none, xdg_shell := none, xdg_surface := 0,
    current_width := 0, current_height := 0,
    buffers0 := buffer.zero, buffers1 := buffer.zero, back_buffer := 0,
    exiting := false, exit_code := 0,
    fds := [], maps := [], next_handle := 1, trace := [], fault := false }

/-- The slot `buffers[i]`. -/
def State.buffers (s : State) (i : Nat) : buffer :=
  if i = 0 then s.buffers0 else s.buffers1

/-- Assignment to the slot `buffers[i]`. -/
def State.setBuffer (s : State) (i : Nat) (b : buffer) : State :=
  if i = 0 then { s with buffers0 := b } else { s with buffers1 := b }

/-- Record an outgoing call. -/
def State.emit (s : State) (c : Call) : State :=
  { s with trace := s.trace ++ [c] }

/-- Modelled from the spec: `set_exit_code` of `exit_code.h`, whose definition
is not part of `wayland.c`.  Section 6 describes the termination signal as a
process-wide flag settable by any component; setting it raises the flag and
keeps the code. -/
def set_exit_code (code : Nat) (s : State) : State :=
  { s with exiting := true, exit_code := code }

/-- Modelled from the spec: `is_exiting` of `exit_code.h`, the poll of the
process-wide termination flag. -/
def is_exiting (s : State) : Bool := s.exiting

/-! ## Buffer pool -/

/-- Lines 58-66. -/
def swap_buffers (s : State) : State :=
  if s.back_buffer = 0 then { s with back_buffer := 1 }
  else { s with back_buffer := 0 }

/-- The environment's answers to the three system calls of one `init_buffer`
call: the value of `syscall(SYS_memfd_create, ...)` (a descriptor, or a
negative value on failure), the value of `ftruncate` and the value of `mmap`
(an address, or `MAP_FAILED`). -/
structure SysAnswers where
  memfd_create : Int
  ftruncate : Int
  mmap : Int
deriving DecidableEq, Repr

/-- Kernel effect of a call that returns the descriptor `fd`: it is entered
in the descriptor table. -/
def State.open_fd (s : State) (fd : Int) : State :=
  { s with fds := fd :: s.fds }

/-- The call `close(fd)`: the descriptor leaves the descriptor table. -/
def State.close_fd (s : State) (fd : Int) : State :=
  { s with fds := s.fds.erase fd, trace := s.trace ++ [.close fd] }

/-- Kernel effect of a `mmap` that returns `addr`: a mapping of `length`
bytes at `addr` is live. -/
def State.add_map (s : State) (addr length : Int) : State :=
  { s with maps := (addr, length) :: s.maps }

/-- The call `munmap(addr, length)`: the mapping is removed. -/
def State.remove_map (s : State) (addr length : Int) : State :=
  { s with maps := s.maps.erase (addr, length), trace := s.trace ++ [.munmap addr length] }

/-- The handle allocator hands out `s.next_handle` and moves on. -/
def State.take_handle (s : State) : State :=
  { s with next_handle := s.next_handle + 1 }

/-- A `NULL` handle was handed to libwayland. -/
def State.crash (s : State) : State :=
  { s with fault := true }

/-- Lines 68-106, on the slot `buffers[i]`.  A call that returns a
descriptor opens it, `close` removes it from the descriptor table, a `mmap`
that does not return `MAP_FAILED` adds a mapping.  Object constructors return
the next free handle. `wl_shm_create_pool` on a `NULL` allocator faults. -/
def init_buffer (i : Nat) (a : SysAnswers) (s : State) : State :=
  let s : State := s.emit (.enter_init_buffer i)
  let s : State := s.setBuffer i { s.buffers i with fd := a.memfd_create }
  let s : State := s.emit (.memfd_create a.memfd_create)
  let s : State := if 0 ≤ a.memfd_create then s.open_fd a.memfd_create else s
  if (s.buffers i).fd < 0 then
    set_exit_code 1 s
  else
    let s : State := s.setBuffer i { s.buffers i with width := s.current_width }
    let s : State := s.setBuffer i { s.buffers i with
      stride := toInt32 (toSizeT (toSizeT (s.buffers i).width * sizeof_uint32_t)) }
    let s : State := s.setBuffer i { s.buffers i with height := s.current_height }
    let s : State := s.setBuffer i { s.buffers i with
      capacity := toInt32 ((s.buffers i).stride * (s.buffers i).height) }
    let s : State := s.emit (.ftruncate (s.buffers i).fd (s.buffers i).capacity a.ftruncate)
    if a.ftruncate < 0 then
      let s : State := set_exit_code 1 s
      s.close_fd (s.buffers i).fd
    else
      let s : State := s.setBuffer i { s.buffers i with data := a.mmap }
      let s : State := s.emit
        (.mmap (toSizeT (s.buffers i).capacity) (s.buffers i).fd a.mmap)
      let s : State := if a.mmap = MAP_FAILED then s
                       else s.add_map a.mmap (toSizeT (s.buffers i).capacity)
      if (s.buffers i).data = MAP_FAILED then
        let s : State := set_exit_code 1 s
        s.close_fd (s.buffers i).fd
      else
        let s : State := s.setBuffer i { s.buffers i with cairo_surface := s.next_handle }
        let s : State := (s.emit (.cairo_image_surface_create_for_data (s.buffers i).data
          (s.buffers i).width (s.buffers i).height (s.buffers i).stride
          (s.buffers i).cairo_surface)).take_handle
        let s : State := s.setBuffer i { s.buffers i with cairo := s.next_handle }
        let s : State := (s.emit
          (.cairo_create (s.buffers i).cairo_surface (s.buffers i).cairo)).take_handle
        if s.wl_shm = none then
          (s.emit (.wl_shm_create_pool s.wl_shm (s.buffers i).fd (s.buffers i).capacity 0)).crash
        else
          let s : State := s.setBuffer i { s.buffers i with wl_shm_pool := s.next_handle }
          let s : State := (s.emit (.wl_shm_create_pool s.wl_shm (s.buffers i).fd
            (s.buffers i).capacity (s.buffers i).wl_shm_pool)).take_handle
          let s : State := s.setBuffer i { s.buffers i with wl_buffer := s.next_handle }
          (s.emit (.wl_shm_pool_create_buffer (s.buffers i).wl_shm_pool (s.buffers i).width
            (s.buffers i).height (s.buffers i).stride (s.buffers i).wl_buffer)).take_handle

/-- Lines 108-121.  `a0` and `a1` are the environment's answers during the
first and the second allocation. -/
def init_buffers (a0 a1 : SysAnswers) (s : State) : State :=
  if s.current_width = 0 ∨ s.current_height = 0 then
    set_exit_code 1 s
  else
    let s : State := init_buffer 0 a0 s
    if s.fault then s
    else if is_exiting s then s
    else init_buffer 1 a1 s

/-- Lines 123-131, on the slot `buffers[i]`. -/
def fini_buffer (i : Nat) (s : State) : State :=
  let s : State := s.emit (.enter_fini_buffer i)
  let s : State := s.emit (.cairo_destroy (s.buffers i).cairo)
  let s : State := s.emit (.cairo_surface_destroy (s.buffers i).cairo_surface)
  let s : State := s.emit (.wl_buffer_destroy (s.buffers i).wl_buffer)
  let s : State := s.emit (.wl_shm_pool_destroy (s.buffers i).wl_shm_pool)
  let s : State := s.remove_map (s.buffers i).data (toSizeT (s.buffers i).capacity)
  s.close_fd (s.buffers i).fd

/-- Lines 133-137. -/
def fini_buffers (s : State) : State :=
  fini_buffer 1 (fini_buffer 0 s)

/-! ## Protocol event handlers -/

/-- Value of `wl_compositor_interface.name`. -/
def wl_compositor_interface_name : String := "wl_compositor"

/-- Value of `wl_shm_interface.name`. -/
def wl_shm_interface_name : String := "wl_shm"

/-- Value of `xdg_shell_interface.name`. -/
def xdg_shell_interface_name : String := "xdg_shell"

/-- Lines 139-166.  `strcmp(a, b) == 0` is equality of the two strings; the
proxy returned by `wl_registry_bind` is the one bound to `name`. -/
def global (name : Nat) (interface : String) (version : Nat) (s : State) : State :=
  if interface = wl_compositor_interface_name then
    { s.emit (.wl_registry_bind name wl_compositor_interface_name version)
      with wl_compositor := some ⟨name, version⟩ }
  else if interface = wl_shm_interface_name then
    { s.emit (.wl_registry_bind name wl_shm_interface_name version)
      with wl_shm := some ⟨name, version⟩ }
  else if interface = xdg_shell_interface_name then
    { s.emit (.wl_registry_bind name xdg_shell_interface_name version)
      with xdg_shell := some ⟨name, version⟩ }
  else s

/-- Lines 168-172. -/
def global_remove (_name : Nat) (s : State) : State := s

/-- Lines 174-177.  The parameter `xdg_shell` is the proxy the event was
delivered on. -/
def ping (xdg_shell : Option wl_proxy) (serial : Nat) (s : State) : State :=
  s.emit (.xdg_shell_pong xdg_shell serial)

/-- Lines 179-186. -/
def xdg_surface_configure (xdg_surface : Nat) (width height : Int)
    (_states : List Nat) (serial : Nat) (s : State) : State :=
  let s : State := { s with current_width := width }
  let s : State := { s with current_height := height }
  s.emit (.xdg_surface_ack_configure xdg_surface serial)

/-- Lines 188-190. -/
def xdg_surface_close (_xdg_surface : Nat) (s : State) : State := s

/-- Events the display service delivers to the three listeners of lines
228-233. -/
inductive Event where
  | global (name : Nat) (interface : String) (version : Nat)
  | global_remove (name : Nat)
  | ping (serial : Nat)
  | configure (width height : Int) (states : List Nat) (serial : Nat)
  | close
deriving DecidableEq, Repr

/-- Delivery of one event to the listener registered for its object: the
registry listener (line 228), the shell listener on `xdg_shell` (line 229),
the surface listener on `xdg_surface` (lines 230-233). -/
def handle (e : Event) (s : State) : State :=
  match e with
  | .global name interface version => global name interface version s
  | .global_remove name => global_remove name s
  | .ping serial => ping s.xdg_shell serial s
  | .configure width height states serial =>
      xdg_surface_configure s.xdg_surface width height states serial s
  | .close => xdg_surface_close s.xdg_surface s

/-- Delivery of a batch of events, in order. -/
def deliver (evs : List Event) (s : State) : State :=
  evs.foldl (fun s e => handle e s) s

/-! ## Start-up and render loop -/

/-- What the environment does during one `wl_display_roundtrip`: the events
it delivers and, possibly, another component of the process raising the
termination signal with `set_exit_code`. -/
structure Frame where
  events : List Event
  external_exit : Option Nat
deriving DecidableEq, Repr

/-- `wl_display_roundtrip(wl_display)` under the environment behaviour `f`. -/
def wl_display_roundtrip (f : Frame) (s : State) : State :=
  let s : State := deliver f.events (s.emit .wl_display_roundtrip)
  match f.external_exit with
  | some code => set_exit_code code s
  | none => s

/-- One iteration of the loop of lines 280-296, up to and including the
round trip of line 291. -/
def render_iteration (wl_surface : Nat) (f : Frame) (s : State) : State :=
  let s : State := s.emit (.draw (s.buffers s.back_buffer).cairo)
  let s : State := s.emit (.wl_surface_attach wl_surface (s.buffers s.back_buffer).wl_buffer)
  let s : State := s.emit (.wl_surface_commit wl_surface)
  let s : State := s.emit (.wl_surface_damage wl_surface
    (s.buffers s.back_buffer).width (s.buffers s.back_buffer).height)
  let s : State := s.emit (.xdg_surface_set_window_geometry s.xdg_surface
    (s.buffers s.back_buffer).width (s.buffers s.back_buffer).height)
  let s : State := swap_buffers s
  wl_display_roundtrip f s

/-- The loop of lines 280-296.  The list holds the environment's behaviour
during the successive round trips; the result is `(true, s)` when the loop
ended with `break` in state `s`, and `(false, s)` when the loop is still
running in state `s` after the last listed round trip. -/
def render_loop (wl_surface : Nat) : List Frame → State → Bool × State
  | [], s => (false, s)
  | f :: fs, s =>
    let s : State := render_iteration wl_surface f s
    if is_exiting s then (true, s) else render_loop wl_surface fs s

/-- The state after the iterations for the listed round trips, without the
exit test of lines 292-294. -/
def run_frames (wl_surface : Nat) (fs : List Frame) (s : State) : State :=
  fs.foldl (fun s f => render_iteration wl_surface f s) s

/-- How an execution of `wayland_start` ends: it returns, it hands a `NULL`
handle to libwayland, or it is still inside the render loop when the listed
round trips are used up. -/
inductive Outcome where
  | returned
  | fault
  | looping
deriving DecidableEq, Repr

/-- The environment of one execution of `wayland_start`. -/
structure Env where
  display_ok : Bool
  registry_ok : Bool
  advertised : List Event
  wl_surface_ok : Bool
  xdg_surface_ok : Bool
  configure : Frame
  alloc0 : SysAnswers
  alloc1 : SysAnswers
  frames : List Frame
deriving DecidableEq, Repr

/-- Lines 298-308. -/
def teardown (wl_surface : Nat) (s : State) : State :=
  let s : State := fini_buffers s
  let s : State := s.emit (.xdg_surface_destroy s.xdg_surface)
  let s : State := s.emit (.wl_surface_destroy wl_surface)
  let s : State := s.emit (.xdg_shell_destroy s.xdg_shell)
  let s : State := s.emit (.wl_shm_destroy s.wl_shm)
  let s : State := s.emit (.wl_compositor_destroy s.wl_compositor)
  let s : State := s.emit .wl_registry_destroy
  s.emit .wl_display_disconnect

/-- Lines 262-308: from surface creation to the end. -/
def wayland_start_surface (env : Env) (s : State) : Outcome × State :=
  let wl_surface : Nat := if env.wl_surface_ok then s.next_handle else 0
  let s : State := (s.emit (.wl_compositor_create_surface s.wl_compositor wl_surface)).take_handle
  let s : State := if wl_surface = 0 then s.emit (.printf "wl_surface failed\n") else s
  if wl_surface = 0 then
    (.fault, (s.emit (.xdg_shell_get_xdg_surface s.xdg_shell wl_surface 0)).crash)
  else
    let s : State := { s with xdg_surface := if env.xdg_surface_ok then s.next_handle else 0 }
    let s : State :=
      (s.emit (.xdg_shell_get_xdg_surface s.xdg_shell wl_surface s.xdg_surface)).take_handle
    let s : State := if s.xdg_surface = 0 then s.emit (.printf "xdg_surface failed\n") else s
    if s.xdg_surface = 0 then
      (.fault, (s.emit (.xdg_surface_add_listener s.xdg_surface)).crash)
    else
      let s : State := s.emit (.xdg_surface_add_listener s.xdg_surface)
      let s : State := s.emit (.xdg_surface_set_title s.xdg_surface "IRC Client")
      let s : State := s.emit (.xdg_surface_set_maximized s.xdg_surface)
      let s : State := wl_display_roundtrip env.configure s
      let s : State := init_buffers env.alloc0 env.alloc1 s
      if s.fault then (.fault, s)
      else if is_exiting s then (.returned, s)
      else
        match render_loop wl_surface env.frames s with
        | (false, s) => (.looping, s)
        | (true, s) => (.returned, teardown wl_surface s)

/-- Lines 235-309.  A libwayland call that is handed a `NULL` handle where
an object is required ends the execution with `Outcome.fault`. -/
def wayland_start (env : Env) (s : State) : Outcome × State :=
  let s : State := s.emit (.wl_display_connect env.display_ok)
  if env.display_ok = false then
    let s : State := s.emit (.printf "wl_display failed\n")
    (.returned, set_exit_code 2 s)
  else
    let s : State := s.emit (.wl_display_get_registry env.registry_ok)
    let s : State := if env.registry_ok = false then s.emit (.printf "wl_registry failed\n") else s
    let s : State := s.emit .wl_registry_add_listener
    if env.registry_ok = false then (.fault, s.crash)
    else
      let s : State := deliver env.advertised (s.emit .wl_display_dispatch)
      let s : State := if s.wl_compositor = none then s.emit (.printf "wl_compositor failed\n") else s
      let s : State := if s.wl_shm = none then s.emit (.printf "wl_shm failed\n") else s
      let s : State := if s.xdg_shell = none then s.emit (.printf "xdg_shell failed\n") else s
      let s : State := s.emit (.xdg_shell_add_listener s.xdg_shell)
      if s.xdg_shell = none then (.fault, s.crash)
      else
        let s : State := s.emit (.xdg_shell_use_unstable_version s.xdg_shell)
        if s.wl_compositor = none then
          (.fault, (s.emit (.wl_compositor_create_surface s.wl_compositor 0)).crash)
        else wayland_start_surface env s

/-! ## Observations on the record of outgoing calls -/

/-- The serials acknowledged with `xdg_surface_ack_configure`, in order. -/
def acked_serials (t : List Call) : List Nat :=
  t.filterMap (fun c => match c with
    | .xdg_surface_ack_configure _ serial => some serial
    | _ => none)

/-- The serials of the configure events of a batch, in order. -/
def configure_serials (evs : List Event) : List Nat :=
  evs.filterMap (fun e => match e with
    | .configure _ _ _ serial => some serial
    | _ => none)

/-- The serials answered with `xdg_shell_pong`, in order. -/
def pong_serials (t : List Call) : List Nat :=
  t.filterMap (fun c => match c with
    | .xdg_shell_pong _ serial => some serial
    | _ => none)

/-- The number of frames submitted with `wl_surface_commit`. -/
def submitted (t : List Call) : Nat :=
  t.countP (fun c => match c with
    | .wl_surface_commit _ => true
    | _ => false)

/-- The bind requests issued, in order. -/
def bind_requests (t : List Call) : List (Nat × String × Nat) :=
  t.filterMap (fun c => match c with
    | .wl_registry_bind name interface version => some (name, interface, version)
    | _ => none)

/-- The number of times `init_buffer` was entered for slot `i`. -/
def init_buffer_calls (i : Nat) (t : List Call) : Nat :=
  t.count (.enter_init_buffer i)

/-- The number of times `fini_buffer` was entered for slot `i`. -/
def fini_buffer_calls (i : Nat) (t : List Call) : Nat :=
  t.count (.enter_fini_buffer i)

/-- The number of surfaces created: calls of `wl_compositor_create_surface`
that returned an object. -/
def surfaces_created (t : List Call) : Nat :=
  t.countP (fun c => match c with
    | .wl_compositor_create_surface _ ret => decide (ret ≠ 0)
    | _ => false)

/-- The number of `memfd_create` system calls. -/
def memfd_calls (t : List Call) : Nat :=
  t.countP (fun c => match c with
    | .memfd_create _ => true
    | _ => false)

/-! ## Concrete states and environments -/

/-- The state after a successful start-up in which the three globals were
bound, the surface objects were created and one configure event proposed
`w` x `h`. -/
def configured (w h : Int) : State :=
  { State.initial with
    wl_compositor := some ⟨1, 3⟩, wl_shm := some ⟨2, 1⟩, xdg_shell := some ⟨3, 1⟩,
    xdg_surface := 2, current_width := w, current_height := h, next_handle := 3 }

/-- Answers of an environment in which the three system calls succeed,
returning the descriptor `fd` and the address `addr`. -/
def answers_ok (fd addr : Int) : SysAnswers :=
  { memfd_create := fd, ftruncate := 0, mmap := addr }

/-- Answers of an environment in which `memfd_create` fails. -/
def answers_no_memfd : SysAnswers :=
  { memfd_create := -1, ftruncate := 0, mmap := 0 }

/-- The state in which the render loop starts for a 640 x 480 surface. -/
def rendering : State :=
  init_buffers (answers_ok 3 4096) (answers_ok 4 8192000) (configured 640 480)

/-- A display service that advertises the three globals, proposes 640 x 480
with serial 1, and delivers a close request during the first round trip of
the render loop; all system calls succeed, and another component raises the
termination signal during the third round trip. -/
def env_all_ok : Env :=
  { display_ok := true
    registry_ok := true
    advertised := [.global 1 "wl_compositor" 3, .global 2 "wl_shm" 1, .global 3 "xdg_shell" 1]
    wl_surface_ok := true
    xdg_surface_ok := true
    configure := ⟨[.configure 640 480 [] 1], none⟩
    alloc0 := answers_ok 3 4096
    alloc1 := answers_ok 4 8192000
    frames := [⟨[.close], none⟩, ⟨[], none⟩, ⟨[], some 1⟩] }

/-- As `env_all_ok`, but `memfd_create` fails during the second allocation. -/
def env_second_allocation_fails : Env :=
  { env_all_ok with alloc1 := answers_no_memfd }

/-- As `env_all_ok`, but the connection to the display service fails. -/
def env_no_display : Env :=
  { env_all_ok with display_ok := false }

/-- As `env_all_ok`, but the display service does not advertise `wl_shm`. -/
def env_without_wl_shm : Env :=
  { env_all_ok with advertised := [.global 1 "wl_compositor" 3, .global 3 "xdg_shell" 1] }

/-! ## Registry advertisements -/

/-- One registry advertisement: the arguments of the `global` event. -/
structure Advert where
  name : Nat
  interface : String
  version : Nat
deriving DecidableEq, Repr

/-- The event that carries an advertisement. -/
def Advert.event (a : Advert) : Event := .global a.name a.interface a.version

/-- The interface is one of the three the handler `global` compares with. -/
def recognised (interface : String) : Bool :=
  interface = wl_compositor_interface_name ∨ interface = wl_shm_interface_name ∨
    interface = xdg_shell_interface_name

/-- The proxy of the last advertisement of `interface` in the sequence, if
there is one. -/
def last_advertised (interface : String) : List Advert → Option wl_proxy
  | [] => none
  | a :: rest =>
    match last_advertised interface rest with
    | some p => some p
    | none => if a.interface = interface then some ⟨a.name, a.version⟩ else none

/-- The handle after a sequence of advertisements: the proxy of the last
advertisement of `interface`, or the old handle when there was none. -/
def rebound (old : Option wl_proxy) (interface : String) (ads : List Advert) :
    Option wl_proxy :=
  match last_advertised interface ads with
  | some p => some p
  | none => old

/-- The bind request the handler issues for an advertisement. -/
def Advert.request (a : Advert) : Nat × String × Nat := (a.name, a.interface, a.version)

/-! ## Field-wise description of the state operations -/

@[simp]
theorem emit_fields (s : State) (c : Call) :
    (s.emit c).wl_compositor = s.wl_compositor ∧
    (s.emit c).wl_shm = s.wl_shm ∧
    (s.emit c).xdg_shell = s.xdg_shell ∧
    (s.emit c).xdg_surface = s.xdg_surface ∧
    (s.emit c).current_width = s.current_width ∧
    (s.emit c).current_height = s.current_height ∧
    (s.emit c).buffers0 = s.buffers0 ∧
    (s.emit c).buffers1 = s.buffers1 ∧
    (s.emit c).back_buffer = s.back_buffer ∧
    (s.emit c).exiting = s.exiting ∧
    (s.emit c).exit_code = s.exit_code ∧
    (s.emit c).fds = s.fds ∧
    (s.emit c).maps = s.maps ∧
    (s.emit c).next_handle = s.next_handle ∧
    (s.emit c).trace = s.trace ++ [c] ∧
    (s.emit c).fault = s.fault ∧
    ∀ i, (s.emit c).buffers i = s.buffers i := by
  exact ⟨rfl, rfl, rfl, rfl, rfl, rfl, rfl, rfl, rfl, rfl, rfl, rfl, rfl, rfl, rfl, rfl, fun _ => rfl⟩

@[simp]
theorem open_fd_fields (s : State) (fd : Int) :
    (s.open_fd fd).wl_compositor = s.wl_compositor ∧
    (s.open_fd fd).wl_shm = s.wl_shm ∧
    (s.open_fd fd).xdg_shell = s.xdg_shell ∧
    (s.open_fd fd).xdg_surface = s.xdg_surface ∧
    (s.open_fd fd).current_width = s.current_width ∧
    (s.open_fd fd).current_height = s.current_height ∧
    (s.open_fd fd).buffers0 = s.buffers0 ∧
    (s.open_fd fd).buffers1 = s.buffers1 ∧
    (s.open_fd fd).back_buffer = s.back_buffer ∧
    (s.open_fd fd).exiting = s.exiting ∧
    (s.open_fd fd).exit_code = s.exit_code ∧
    (s.open_fd fd).fds = fd :: s.fds ∧
    (s.open_fd fd).maps = s.maps ∧
    (s.open_fd fd).next_handle = s.next_handle ∧
    (s.open_fd fd).trace = s.trace ∧
    (s.open_fd fd).fault = s.fault ∧
    ∀ i, (s.open_fd fd).buffers i = s.buffers i := by
  exact ⟨rfl, rfl, rfl, rfl, rfl, rfl, rfl, rfl, rfl, rfl, rfl, rfl, rfl, rfl, rfl, rfl, fun _ => rfl⟩

@[simp]
theorem close_fd_fields (s : State) (fd : Int) :
    (s.close_fd fd).wl_compositor = s.wl_compositor ∧
    (s.close_fd fd).wl_shm = s.wl_shm ∧
    (s.close_fd fd).xdg_shell = s.xdg_shell ∧
    (s.close_fd fd).xdg_surface = s.xdg_surface ∧
    (s.close_fd fd).current_width = s.current_width ∧
    (s.close_fd fd).current_height = s.current_height ∧
    (s.close_fd fd).buffers0 = s.buffers0 ∧
    (s.close_fd fd).buffers1 = s.buffers1 ∧
    (s.close_fd fd).back_buffer = s.back_buffer ∧
    (s.close_fd fd).exiting = s.exiting ∧
    (s.close_fd fd).exit_code = s.exit_code ∧
    (s.close_fd fd).fds = s.fds.erase fd ∧
    (s.close_fd fd).maps = s.maps ∧
    (s.close_fd fd).next_handle = s.next_handle ∧
    (s.close_fd fd).trace = s.trace ++ [Call.close fd] ∧
    (s.close_fd fd).fault = s.fault ∧
    ∀ i, (s.close_fd fd).buffers i = s.buffers i := by
  exact ⟨rfl, rfl, rfl, rfl, rfl, rfl, rfl, rfl, rfl, rfl, rfl, rfl, rfl, rfl, rfl, rfl, fun _ => rfl⟩

@[simp]
theorem add_map_fields (s : State) (addr len : Int) :
    (s.add_map addr len).wl_compositor = s.wl_compositor ∧
    (s.add_map addr len).wl_shm = s.wl_shm ∧
    (s.add_map addr len).xdg_shell = s.xdg_shell ∧
    (s.add_map addr len).xdg_surface = s.xdg_surface ∧
    (s.add_map addr len).current_width = s.current_width ∧
    (s.add_map addr len).current_height = s.current_height ∧
    (s.add_map addr len).buffers0 = s.buffers0 ∧
    (s.add_map addr len).buffers1 = s.buffers1 ∧
    (s.add_map addr len).back_buffer = s.back_buffer ∧
    (s.add_map addr len).exiting = s.exiting ∧
    (s.add_map addr len).exit_code = s.exit_code ∧
    (s.add_map addr len).fds = s.fds ∧
    (s.add_map addr len).maps = (addr, len) :: s.maps ∧
    (s.add_map addr len).next_handle = s.next_handle ∧
    (s.add_map addr len).trace = s.trace ∧
    (s.add_map addr len).fault = s.fault ∧
    ∀ i, (s.add_map addr len).buffers i = s.buffers i := by
  exact ⟨rfl, rfl, rfl, rfl, rfl, rfl, rfl, rfl, rfl, rfl, rfl, rfl, rfl, rfl, rfl, rfl, fun _ => rfl⟩

@[simp]
theorem remove_map_fields (s : State) (addr len : Int) :
    (s.remove_map addr len).wl_compositor = s.wl_compositor ∧
    (s.remove_map addr len).wl_shm = s.wl_shm ∧
    (s.remove_map addr len).xdg_shell = s.xdg_shell ∧
    (s.remove_map addr len).xdg_surface = s.xdg_surface ∧
    (s.remove_map addr len).current_width = s.current_width ∧
    (s.remove_map addr len).current_height = s.current_height ∧
    (s.remove_map addr len).buffers0 = s.buffers0 ∧
    (s.remove_map addr len).buffers1 = s.buffers1 ∧
    (s.remove_map addr len).back_buffer = s.back_buffer ∧
    (s.remove_map addr len).exiting = s.exiting ∧
    (s.remove_map addr len).exit_code = s.exit_code ∧
    (s.remove_map addr len).fds = s.fds ∧
    (s.remove_map addr len).maps = s.maps.erase (addr, len) ∧
    (s.remove_map addr len).next_handle = s.next_handle ∧
    (s.remove_map addr len).trace = s.trace ++ [Call.munmap addr len] ∧
    (s.remove_map addr len).fault = s.fault ∧
    ∀ i, (s.remove_map addr len).buffers i = s.buffers i := by
  exact ⟨rfl, rfl, rfl, rfl, rfl, rfl, rfl, rfl, rfl, rfl, rfl, rfl, rfl, rfl, rfl, rfl, fun _ => rfl⟩

@[simp]
theorem take_handle_fields (s : State)  :
    (s.take_handle).wl_compositor = s.wl_compositor ∧
    (s.take_handle).wl_shm = s.wl_shm ∧
    (s.take_handle).xdg_shell = s.xdg_shell ∧
    (s.take_handle).xdg_surface = s.xdg_surface ∧
    (s.take_handle).current_width = s.current_width ∧
    (s.take_handle).current_height = s.current_height ∧
    (s.take_handle).buffers0 = s.buffers0 ∧
    (s.take_handle).buffers1 = s.buffers1 ∧
    (s.take_handle).back_buffer = s.back_buffer ∧
    (s.take_handle).exiting = s.exiting ∧
    (s.take_handle).exit_code = s.exit_code ∧
    (s.take_handle).fds = s.fds ∧
    (s.take_handle).maps = s.maps ∧
    (s.take_handle).next_handle = s.next_handle + 1 ∧
    (s.take_handle).trace = s.trace ∧
    (s.take_handle).fault = s.fault ∧
    ∀ i, (s.take_handle).buffers i = s.buffers i := by
  exact ⟨rfl, rfl, rfl, rfl, rfl, rfl, rfl, rfl, rfl, rfl, rfl, rfl, rfl, rfl, rfl, rfl, fun _ => rfl⟩

@[simp]
theorem crash_fields (s : State)  :
    (s.crash).wl_compositor = s.wl_compositor ∧
    (s.crash).wl_shm = s.wl_shm ∧
    (s.crash).xdg_shell = s.xdg_shell ∧
    (s.crash).xdg_surface = s.xdg_surface ∧
    (s.crash).current_width = s.current_width ∧
    (s.crash).current_height = s.current_height ∧
    (s.crash).buffers0 = s.buffers0 ∧
    (s.crash).buffers1 = s.buffers1 ∧
    (s.crash).back_buffer = s.back_buffer ∧
    (s.crash).exiting = s.exiting ∧
    (s.crash).exit_code = s.exit_code ∧
    (s.crash).fds = s.fds ∧
    (s.crash).maps = s.maps ∧
    (s.crash).next_handle = s.next_handle ∧
    (s.crash).trace = s.trace ∧
    (s.crash).fault = true ∧
    ∀ i, (s.crash).buffers i = s.buffers i := by
  exact ⟨rfl, rfl, rfl, rfl, rfl, rfl, rfl, rfl, rfl, rfl, rfl, rfl, rfl, rfl, rfl, rfl, fun _ => rfl⟩

@[simp]
theorem set_exit_code_fields (s : State) (n : Nat) :
    (set_exit_code n s).wl_compositor = s.wl_compositor ∧
    (set_exit_code n s).wl_shm = s.wl_shm ∧
    (set_exit_code n s).xdg_shell = s.xdg_shell ∧
    (set_exit_code n s).xdg_surface = s.xdg_surface ∧
    (set_exit_code n s).current_width = s.current_width ∧
    (set_exit_code n s).current_height = s.current_height ∧
    (set_exit_code n s).buffers0 = s.buffers0 ∧
    (set_exit_code n s).buffers1 = s.buffers1 ∧
    (set_exit_code n s).back_buffer = s.back_buffer ∧
    (set_exit_code n s).exiting = true ∧
    (set_exit_code n s).exit_code = n ∧
    (set_exit_code n s).fds = s.fds ∧
    (set_exit_code n s).maps = s.maps ∧
    (set_exit_code n s).next_handle = s.next_handle ∧
    (set_exit_code n s).trace = s.trace ∧
    (set_exit_code n s).fault = s.fault ∧
    ∀ i, (set_exit_code n s).buffers i = s.buffers i := by
  exact ⟨rfl, rfl, rfl, rfl, rfl, rfl, rfl, rfl, rfl, rfl, rfl, rfl, rfl, rfl, rfl, rfl, fun _ => rfl⟩

@[simp]
theorem swap_buffers_fields (s : State)  :
    (swap_buffers s).wl_compositor = s.wl_compositor ∧
    (swap_buffers s).wl_shm = s.wl_shm ∧
    (swap_buffers s).xdg_shell = s.xdg_shell ∧
    (swap_buffers s).xdg_surface = s.xdg_surface ∧
    (swap_buffers s).current_width = s.current_width ∧
    (swap_buffers s).current_height = s.current_height ∧
    (swap_buffers s).buffers0 = s.buffers0 ∧
    (swap_buffers s).buffers1 = s.buffers1 ∧
    (swap_buffers s).back_buffer = (if s.back_buffer = 0 then 1 else 0) ∧
    (swap_buffers s).exiting = s.exiting ∧
    (swap_buffers s).exit_code = s.exit_code ∧
    (swap_buffers s).fds = s.fds ∧
    (swap_buffers s).maps = s.maps ∧
    (swap_buffers s).next_handle = s.next_handle ∧
    (swap_buffers s).trace = s.trace ∧
    (swap_buffers s).fault = s.fault ∧
    ∀ i, (swap_buffers s).buffers i = s.buffers i := by
  unfold swap_buffers State.buffers
  split <;> simp

@[simp]
theorem setBuffer_fields (s : State) (i : Nat) (b : buffer) :
    (s.setBuffer i b).wl_compositor = s.wl_compositor ∧
    (s.setBuffer i b).wl_shm = s.wl_shm ∧
    (s.setBuffer i b).xdg_shell = s.xdg_shell ∧
    (s.setBuffer i b).xdg_surface = s.xdg_surface ∧
    (s.setBuffer i b).current_width = s.current_width ∧
    (s.setBuffer i b).current_height = s.current_height ∧
    (s.setBuffer i b).buffers0 = (if i = 0 then b else s.buffers0) ∧
    (s.setBuffer i b).buffers1 = (if i = 0 then s.buffers1 else b) ∧
    (s.setBuffer i b).back_buffer = s.back_buffer ∧
    (s.setBuffer i b).exiting = s.exiting ∧
    (s.setBuffer i b).exit_code = s.exit_code ∧
    (s.setBuffer i b).fds = s.fds ∧
    (s.setBuffer i b).maps = s.maps ∧
    (s.setBuffer i b).next_handle = s.next_handle ∧
    (s.setBuffer i b).trace = s.trace ∧
    (s.setBuffer i b).fault = s.fault ∧
    (s.setBuffer i b).buffers i = b := by
  unfold State.setBuffer State.buffers
  split <;> simp_all

@[simp]
theorem setBuffer_other_slot (s : State) (b : buffer) :
    (s.setBuffer 0 b).buffers 1 = s.buffers 1 ∧ (s.setBuffer 1 b).buffers 0 = s.buffers 0 := by
  simp [State.setBuffer, State.buffers]

/-! ## Buffer allocation -/

theorem init_buffer_failed (i : Nat) (a : SysAnswers) (s : State)
    (hfail : a.memfd_create < 0 ∨ a.ftruncate < 0 ∨ a.mmap = MAP_FAILED) :
    is_exiting (init_buffer i a s) = true ∧
    (init_buffer i a s).fault = s.fault ∧
    (init_buffer i a s).fds = s.fds ∧
    (init_buffer i a s).maps = s.maps ∧
    memfd_calls (init_buffer i a s).trace = memfd_calls s.trace + 1 ∧
    ∀ j, j ≠ i → init_buffer_calls j (init_buffer i a s).trace = init_buffer_calls j s.trace := by
  by_cases h1 : a.memfd_create < 0
  · have h1' : ¬ (0 ≤ a.memfd_create) := by omega
    simp [init_buffer, h1, h1', is_exiting, memfd_calls, init_buffer_calls, List.count_append]
    intro j hj
    simp [List.count_cons, Ne.symm hj, hj]
  · have h1' : 0 ≤ a.memfd_create := by omega
    by_cases h2 : a.ftruncate < 0
    · simp [init_buffer, h1, h1', h2, is_exiting, memfd_calls, init_buffer_calls,
        List.count_append]
      intro j hj
      simp [List.count_cons, Ne.symm hj, hj]
    · have h3 : a.mmap = MAP_FAILED := by tauto
      simp [init_buffer, h1, h1', h2, h3, is_exiting, memfd_calls, init_buffer_calls,
        List.count_append]
      intro j hj
      simp [List.count_cons, Ne.symm hj, hj]

theorem init_buffer_frame (i : Nat) (a : SysAnswers) (s : State) :
    (init_buffer i a s).current_width = s.current_width ∧
    (init_buffer i a s).current_height = s.current_height ∧
    (init_buffer i a s).wl_shm = s.wl_shm ∧
    (init_buffer i a s).back_buffer = s.back_buffer := by
  by_cases h1 : a.memfd_create < 0 <;> by_cases h2 : a.ftruncate < 0 <;>
  by_cases h3 : a.mmap = MAP_FAILED <;> by_cases h4 : s.wl_shm = none <;>
  by_cases h5 : 0 ≤ a.memfd_create <;>
  simp [init_buffer, h1, h2, h3, h4, h5]

theorem init_buffer_succeeded (i : Nat) (a : SysAnswers) (s : State)
    (h : is_exiting (init_buffer i a s) = false) (hf : (init_buffer i a s).fault = false) :
    ((init_buffer i a s).buffers i).width = s.current_width ∧
    ((init_buffer i a s).buffers i).height = s.current_height ∧
    ((init_buffer i a s).buffers i).stride
      = toInt32 (toSizeT (toSizeT s.current_width * sizeof_uint32_t)) ∧
    ((init_buffer i a s).buffers i).capacity
      = toInt32 (((init_buffer i a s).buffers i).stride * s.current_height) ∧
    is_exiting s = false ∧ s.fault = false := by
  revert h hf
  by_cases h1 : a.memfd_create < 0 <;> by_cases h2 : a.ftruncate < 0 <;>
  by_cases h3 : a.mmap = MAP_FAILED <;> by_cases h4 : s.wl_shm = none <;>
  by_cases h5 : 0 ≤ a.memfd_create <;>
  simp [init_buffer, h1, h2, h3, h4, h5, is_exiting] <;>
  exact fun x y => ⟨x, y⟩

theorem init_buffer_other_slot (a : SysAnswers) (s : State) :
    (init_buffer 1 a s).buffers0 = s.buffers0 ∧ (init_buffer 0 a s).buffers1 = s.buffers1 := by
  by_cases h1 : a.memfd_create < 0 <;> by_cases h2 : a.ftruncate < 0 <;>
  by_cases h3 : a.mmap = MAP_FAILED <;> by_cases h4 : s.wl_shm = none <;>
  by_cases h5 : 0 ≤ a.memfd_create <;>
  simp [init_buffer, h1, h2, h3, h4, h5]

theorem toInt32_of_range (x : Int) (h0 : 0 ≤ x) (h1 : x < 2 ^ 31) : toInt32 x = x := by
  unfold toInt32
  omega

theorem init_buffers_succeeded (a0 a1 : SysAnswers) (s : State)
    (hw : s.current_width ≠ 0) (hh : s.current_height ≠ 0)
    (hok : is_exiting (init_buffers a0 a1 s) = false ∧ (init_buffers a0 a1 s).fault = false)
    (i : Nat) (hi : i < 2) :
    ((init_buffers a0 a1 s).buffers i).width = s.current_width ∧
    ((init_buffers a0 a1 s).buffers i).height = s.current_height ∧
    ((init_buffers a0 a1 s).buffers i).stride
      = toInt32 (toSizeT (toSizeT s.current_width * sizeof_uint32_t)) ∧
    ((init_buffers a0 a1 s).buffers i).capacity
      = toInt32 (((init_buffers a0 a1 s).buffers i).stride * s.current_height) := by
  obtain ⟨hx, hf⟩ := hok
  have hz : ¬ (s.current_width = 0 ∨ s.current_height = 0) := by tauto
  unfold init_buffers at hx hf ⊢
  simp only [if_neg hz] at hx hf ⊢
  by_cases c1 : (init_buffer 0 a0 s).fault = true
  · simp [c1] at hf
  · by_cases c2 : is_exiting (init_buffer 0 a0 s) = true
    · simp [c1, c2] at hx
    · simp only [c1, c2] at hx hf ⊢
      simp only [Bool.not_eq_true] at c1 c2
      have r0 := init_buffer_succeeded 0 a0 s c2 c1
      have r1 := init_buffer_succeeded 1 a1 (init_buffer 0 a0 s) hx hf
      have fr := init_buffer_frame 0 a0 s
      have ot := (init_buffer_other_slot a1 (init_buffer 0 a0 s)).1
      rw [fr.1, fr.2.1] at r1
      interval_cases i
      · have e : (init_buffer 1 a1 (init_buffer 0 a0 s)).buffers 0
            = (init_buffer 0 a0 s).buffers 0 := by
          simp [State.buffers, ot]
        simp only [Bool.false_eq_true, if_false]
        rw [e]
        exact ⟨r0.1, r0.2.1, r0.2.2.1, r0.2.2.2.1⟩
      · simp only [Bool.false_eq_true, if_false]
        exact ⟨r1.1, r1.2.1, r1.2.2.1, r1.2.2.2.1⟩

theorem toInt32_lt (x : Int) : toInt32 x < 2 ^ 31 := by
  unfold toInt32
  omega

/-- C2 (amended): for positive `current_width` and `current_height`, when
`init_buffers` succeeds, both buffers have `width = current_width` and
`height = current_height`, `stride` is `width * 4` reduced to `int32_t` and
`capacity` is `stride * height` reduced to `int32_t`; the equalities
`capacity == stride * height == width * 4 * height` hold exactly when
`width * 4 * height` does not exceed `INT32_MAX`. -/
theorem init_buffers_capacity (a0 a1 : SysAnswers) (s : State)
    (hw : 0 < s.current_width) (hh : 0 < s.current_height)
    (hok : is_exiting (init_buffers a0 a1 s) = false ∧ (init_buffers a0 a1 s).fault = false)
    (i : Nat) (hi : i < 2) :
    ((init_buffers a0 a1 s).buffers i).width = s.current_width ∧
    ((init_buffers a0 a1 s).buffers i).height = s.current_height ∧
    ((init_buffers a0 a1 s).buffers i).stride = toInt32 (s.current_width * 4) ∧
    ((init_buffers a0 a1 s).buffers i).capacity
      = toInt32 (((init_buffers a0 a1 s).buffers i).stride
          * ((init_buffers a0 a1 s).buffers i).height) ∧
    ((((init_buffers a0 a1 s).buffers i).capacity
        = ((init_buffers a0 a1 s).buffers i).stride * ((init_buffers a0 a1 s).buffers i).height ∧
      ((init_buffers a0 a1 s).buffers i).stride * ((init_buffers a0 a1 s).buffers i).height
        = ((init_buffers a0 a1 s).buffers i).width * 4
            * ((init_buffers a0 a1 s).buffers i).height)
      ↔ s.current_width * 4 * s.current_height < 2 ^ 31) := by
  obtain ⟨e1, e2, e3, e4⟩ :=
    init_buffers_succeeded a0 a1 s (by omega) (by omega) hok i hi
  have e3' : ((init_buffers a0 a1 s).buffers i).stride = toInt32 (s.current_width * 4) := by
    rw [e3]
    unfold toInt32 toSizeT sizeof_uint32_t
    omega
  refine ⟨e1, e2, e3', ?_, ?_⟩
  · rw [e2]
    exact e4
  rw [e1, e2]
  constructor
  · rintro ⟨c1, c2⟩
    rw [← c2, ← c1, e4]
    exact toInt32_lt _
  · intro hr
    have h4 : s.current_width * 4 ≤ s.current_width * 4 * s.current_height :=
      le_mul_of_one_le_right (by omega) (by omega)
    have s1 : ((init_buffers a0 a1 s).buffers i).stride = s.current_width * 4 := by
      rw [e3']
      exact toInt32_of_range _ (by omega) (by omega)
    rw [e4, s1]
    exact ⟨toInt32_of_range _ (by positivity) hr, rfl⟩

/-- C2 at 640 x 480 with all system calls succeeding. -/
theorem init_buffers_capacity_witness :
    0 < (configured 640 480).current_width ∧ 0 < (configured 640 480).current_height ∧
    (is_exiting (init_buffers (answers_ok 3 4096) (answers_ok 4 8192000) (configured 640 480))
        = false ∧
      (init_buffers (answers_ok 3 4096) (answers_ok 4 8192000) (configured 640 480)).fault
        = false) ∧
    ((init_buffers (answers_ok 3 4096) (answers_ok 4 8192000) (configured 640 480)).buffers 1).capacity
      = 1228800 := by
  have h := init_buffers_capacity (answers_ok 3 4096) (answers_ok 4 8192000) (configured 640 480)
    (by decide) (by decide) (by decide) 1 (by decide)
  refine ⟨by decide, by decide, by decide, ?_⟩
  rw [h.2.2.2.1, h.2.2.1, h.2.1]
  decide

/-- C2 as stated fails at `width = 2^30 + 1`, `height = 1`: the allocation
succeeds with `stride = capacity = 4`, while `width * 4 * height` is
`4294967300`. -/
theorem init_buffers_capacity_overflow :
    0 < (configured (2 ^ 30 + 1) 1).current_width ∧
    0 < (configured (2 ^ 30 + 1) 1).current_height ∧
    is_exiting (init_buffers (answers_ok 3 4096) (answers_ok 4 8192) (configured (2 ^ 30 + 1) 1))
      = false ∧
    (init_buffers (answers_ok 3 4096) (answers_ok 4 8192) (configured (2 ^ 30 + 1) 1)).fault
      = false ∧
    (init_buffers (answers_ok 3 4096) (answers_ok 4 8192) (configured (2 ^ 30 + 1) 1)).buffers0.capacity
      = 4 ∧
    (init_buffers (answers_ok 3 4096) (answers_ok 4 8192) (configured (2 ^ 30 + 1) 1)).buffers0.width
        * 4 *
      (init_buffers (answers_ok 3 4096) (answers_ok 4 8192) (configured (2 ^ 30 + 1) 1)).buffers0.height
      = 4294967300 ∧
    (init_buffers (answers_ok 3 4096) (answers_ok 4 8192) (configured (2 ^ 30 + 1) 1)).buffers0.capacity
      ≠ (init_buffers (answers_ok 3 4096) (answers_ok 4 8192) (configured (2 ^ 30 + 1) 1)).buffers0.width
        * 4 *
      (init_buffers (answers_ok 3 4096) (answers_ok 4 8192) (configured (2 ^ 30 + 1) 1)).buffers0.height := by
  decide

/-! ## Swap, zero dimensions, acknowledgements -/

theorem swap_buffers_back_buffer (s : State) :
    (swap_buffers s).back_buffer = if s.back_buffer = 0 then 1 else 0 := by
  unfold swap_buffers
  split <;> rfl

theorem iterate_swap_back_buffer (s : State) (h : s.back_buffer = 0) (n : Nat) :
    (swap_buffers^[n] s).back_buffer = n % 2 := by
  induction n with
  | zero => simpa using h
  | succ k ih =>
    rw [Function.iterate_succ_apply', swap_buffers_back_buffer, ih]
    split <;> omega

/-- C1: in every state whose `back_buffer` designates one of the two slots,
two consecutive calls of `swap_buffers` restore the state, in particular
`back_buffer`; and from the initial state (`back_buffer = &buffers[0]`), `n`
calls of `swap_buffers` leave `back_buffer` on `buffers[n mod 2]`. -/
theorem swap_buffers_involution (s : State)
    (h : s.back_buffer = 0 ∨ s.back_buffer = 1) :
    swap_buffers (swap_buffers s) = s ∧
    (swap_buffers (swap_buffers s)).back_buffer = s.back_buffer ∧
    ∀ n : Nat, (swap_buffers^[n] State.initial).back_buffer = n % 2 := by
  have h2 : swap_buffers (swap_buffers s) = s := by
    cases s with
    | mk c m x xs w hh b0 b1 bb e ec fds maps nh tr fl =>
      simp only at h
      rcases h with h | h <;> subst h <;> simp [swap_buffers]
  exact ⟨h2, by rw [h2], iterate_swap_back_buffer State.initial rfl⟩

/-- C1 at the state after one swap, whose `back_buffer` is `&buffers[1]`. -/
theorem swap_buffers_involution_witness :
    ((swap_buffers State.initial).back_buffer = 0 ∨
      (swap_buffers State.initial).back_buffer = 1) ∧
    swap_buffers (swap_buffers (swap_buffers State.initial)) = swap_buffers State.initial ∧
    (swap_buffers^[5] State.initial).back_buffer = 5 % 2 :=
  ⟨Or.inr rfl,
    (swap_buffers_involution (swap_buffers State.initial) (Or.inr rfl)).1,
    (swap_buffers_involution (swap_buffers State.initial) (Or.inr rfl)).2.2 5⟩

/-- C3: when `current_width` or `current_height` is zero, `init_buffers`
raises the termination signal with code 1, so that `is_exiting()` holds
afterwards; it makes no outgoing call at all, enters `init_buffer` for
neither slot, and leaves the descriptor table, the mappings and both buffers
as they were. -/
theorem init_buffers_zero_dimension (a0 a1 : SysAnswers) (s : State)
    (h : s.current_width = 0 ∨ s.current_height = 0) :
    is_exiting (init_buffers a0 a1 s) = true ∧
    (init_buffers a0 a1 s).exit_code = 1 ∧
    (init_buffers a0 a1 s).trace = s.trace ∧
    init_buffer_calls 0 (init_buffers a0 a1 s).trace = init_buffer_calls 0 s.trace ∧
    init_buffer_calls 1 (init_buffers a0 a1 s).trace = init_buffer_calls 1 s.trace ∧
    (init_buffers a0 a1 s).fds = s.fds ∧
    (init_buffers a0 a1 s).maps = s.maps ∧
    (init_buffers a0 a1 s).buffers0 = s.buffers0 ∧
    (init_buffers a0 a1 s).buffers1 = s.buffers1 := by
  have e : init_buffers a0 a1 s = set_exit_code 1 s := by
    unfold init_buffers
    rw [if_pos h]
  rw [e]
  simp [set_exit_code, is_exiting]

/-- C3 at a configured surface of width 0. -/
theorem init_buffers_zero_dimension_witness :
    ((configured 0 480).current_width = 0 ∨ (configured 0 480).current_height = 0) ∧
    is_exiting (init_buffers (answers_ok 3 4096) (answers_ok 4 8192) (configured 0 480)) = true ∧
    (init_buffers (answers_ok 3 4096) (answers_ok 4 8192) (configured 0 480)).trace
      = (configured 0 480).trace :=
  ⟨Or.inl rfl,
    (init_buffers_zero_dimension (answers_ok 3 4096) (answers_ok 4 8192) (configured 0 480)
      (Or.inl rfl)).1,
    (init_buffers_zero_dimension (answers_ok 3 4096) (answers_ok 4 8192) (configured 0 480)
      (Or.inl rfl)).2.2.1⟩

theorem handle_acked (e : Event) (s : State) :
    acked_serials (handle e s).trace = acked_serials s.trace ++ configure_serials [e] := by
  cases e <;>
    simp [handle, global, global_remove, ping, xdg_surface_configure, xdg_surface_close,
      State.emit, acked_serials, configure_serials]
  all_goals (repeat' split) <;> simp

theorem deliver_acked (evs : List Event) (s : State) :
    acked_serials (deliver evs s).trace = acked_serials s.trace ++ configure_serials evs := by
  induction evs generalizing s with
  | nil => simp [deliver, configure_serials]
  | cons e es ih =>
    have : deliver (e :: es) s = deliver es (handle e s) := rfl
    rw [this, ih, handle_acked]
    simp [configure_serials, List.filterMap_cons]
    cases e <;> simp

/-- C4: for non-zero dimensions, when the first allocation fails at any of
its three failure points (`memfd_create`, `ftruncate`, `mmap`),
`init_buffers` raises the termination signal, does not enter `init_buffer`
for `buffers[1]` (exactly one `memfd_create` call is made and `buffers[1]` is
untouched), and on return the descriptor table and the live mappings are the
ones from before the call. -/
theorem init_buffers_first_allocation_fails (a0 a1 : SysAnswers) (s : State)
    (hw : s.current_width ≠ 0) (hh : s.current_height ≠ 0)
    (hfail : a0.memfd_create < 0 ∨ a0.ftruncate < 0 ∨ a0.mmap = MAP_FAILED) :
    is_exiting (init_buffers a0 a1 s) = true ∧
    init_buffer_calls 1 (init_buffers a0 a1 s).trace = init_buffer_calls 1 s.trace ∧
    memfd_calls (init_buffers a0 a1 s).trace = memfd_calls s.trace + 1 ∧
    (init_buffers a0 a1 s).buffers1 = s.buffers1 ∧
    (init_buffers a0 a1 s).fds = s.fds ∧
    (init_buffers a0 a1 s).maps = s.maps := by
  have hz : ¬ (s.current_width = 0 ∨ s.current_height = 0) := by tauto
  obtain ⟨f1, _, f3, f4, f5, f6⟩ := init_buffer_failed 0 a0 s hfail
  have e : init_buffers a0 a1 s = init_buffer 0 a0 s := by
    unfold init_buffers
    simp only [if_neg hz, f1]
    split <;> rfl
  rw [e]
  exact ⟨f1, f6 1 (by decide), f5, (init_buffer_other_slot a0 s).2, f3, f4⟩

/-- C4 at 640 x 480 with `mmap` failing during the first allocation. -/
theorem init_buffers_first_allocation_fails_witness :
    (configured 640 480).current_width ≠ 0 ∧ (configured 640 480).current_height ≠ 0 ∧
    ((answers_ok 3 MAP_FAILED).memfd_create < 0 ∨ (answers_ok 3 MAP_FAILED).ftruncate < 0 ∨
      (answers_ok 3 MAP_FAILED).mmap = MAP_FAILED) ∧
    is_exiting (init_buffers (answers_ok 3 MAP_FAILED) (answers_ok 4 8192000) (configured 640 480))
      = true ∧
    (init_buffers (answers_ok 3 MAP_FAILED) (answers_ok 4 8192000) (configured 640 480)).fds
      = (configured 640 480).fds :=
  have h := init_buffers_first_allocation_fails (answers_ok 3 MAP_FAILED) (answers_ok 4 8192000)
    (configured 640 480) (by decide) (by decide) (by decide)
  ⟨by decide, by decide, by decide, h.1, h.2.2.2.2.1⟩

/-- C6: for every configure event and every prior state,
`xdg_surface_configure` stores the proposed width and height and emits
exactly one acknowledgement, carrying the event's serial; hence, for every
batch of delivered events, the acknowledged serials are, in order, the old
ones followed by the serials of the configure events of the batch. -/
theorem xdg_surface_configure_acknowledges (s : State) (xdg_surface : Nat)
    (width height : Int) (states : List Nat) (serial : Nat) :
    (xdg_surface_configure xdg_surface width height states serial s).current_width = width ∧
    (xdg_surface_configure xdg_surface width height states serial s).current_height = height ∧
    (xdg_surface_configure xdg_surface width height states serial s).trace
      = s.trace ++ [.xdg_surface_ack_configure xdg_surface serial] ∧
    ∀ (evs : List Event) (s0 : State),
      acked_serials (deliver evs s0).trace = acked_serials s0.trace ++ configure_serials evs := by
  refine ⟨?_, ?_, ?_, deliver_acked⟩ <;> simp [xdg_surface_configure]

/-- C7: for every serial and every state, `ping` emits exactly one pong,
carrying that serial, and changes nothing else of the state; the same holds
for the delivery of a ping event to the listener. -/
theorem ping_answers_with_pong (s : State) (xdg_shell : Option wl_proxy) (serial : Nat) :
    (ping xdg_shell serial s).trace = s.trace ++ [.xdg_shell_pong xdg_shell serial] ∧
    pong_serials (ping xdg_shell serial s).trace = pong_serials s.trace ++ [serial] ∧
    { ping xdg_shell serial s with trace := s.trace } = s ∧
    pong_serials (handle (.ping serial) s).trace = pong_serials s.trace ++ [serial] ∧
    { handle (.ping serial) s with trace := s.trace } = s := by
  simp [ping, handle, pong_serials, State.emit]

theorem handle_exiting (e : Event) (s : State) :
    (handle e s).exiting = s.exiting ∧ submitted (handle e s).trace = submitted s.trace := by
  cases e <;>
    simp [handle, global, global_remove, ping, xdg_surface_configure, xdg_surface_close,
      submitted]
  all_goals (repeat' split) <;> simp

theorem deliver_exiting (evs : List Event) (s : State) :
    (deliver evs s).exiting = s.exiting ∧ submitted (deliver evs s).trace = submitted s.trace := by
  induction evs generalizing s with
  | nil => exact ⟨rfl, rfl⟩
  | cons e es ih =>
    have : deliver (e :: es) s = deliver es (handle e s) := rfl
    rw [this, (ih _).1, (ih _).2, (handle_exiting e s).1, (handle_exiting e s).2]
    exact ⟨rfl, rfl⟩

theorem render_iteration_exiting (ws : Nat) (f : Frame) (s : State) :
    is_exiting (render_iteration ws f s) = (s.exiting || f.external_exit.isSome) ∧
    submitted (render_iteration ws f s).trace = submitted s.trace + 1 := by
  unfold render_iteration wl_display_roundtrip is_exiting
  cases h : f.external_exit <;> simp [h, deliver_exiting] <;>
    simp [submitted, List.countP_append]

theorem run_frames_cons (ws : Nat) (fs : List Frame) (f : Frame) (s : State) :
    run_frames ws (f :: fs) s = run_frames ws fs (render_iteration ws f s) := rfl

theorem run_frames_exiting (ws : Nat) (fs : List Frame) (s : State)
    (h : is_exiting s = true) : is_exiting (run_frames ws fs s) = true := by
  induction fs generalizing s with
  | nil => exact h
  | cons f fs ih =>
    rw [run_frames_cons]
    apply ih
    rw [(render_iteration_exiting ws f s).1]
    simp [is_exiting] at h
    simp [h]

theorem run_frames_submitted (ws : Nat) (fs : List Frame) (s : State) :
    submitted (run_frames ws fs s).trace = submitted s.trace + fs.length := by
  induction fs generalizing s with
  | nil => rfl
  | cons f fs ih =>
    rw [run_frames_cons, ih, (render_iteration_exiting ws f s).2, List.length_cons]
    omega

theorem render_loop_breaks (ws : Nat) (pre : List Frame) (f : Frame) (post : List Frame)
    (s : State) (hpre : is_exiting (run_frames ws pre s) = false)
    (hf : is_exiting (run_frames ws (pre ++ [f]) s) = true) :
    render_loop ws (pre ++ f :: post) s = (true, run_frames ws (pre ++ [f]) s) := by
  induction pre generalizing s with
  | nil =>
    simp only [List.nil_append, run_frames_cons] at hf ⊢
    simp only [render_loop]
    have : run_frames ws [] (render_iteration ws f s) = render_iteration ws f s := rfl
    rw [this] at hf ⊢
    simp [hf]
  | cons p ps ih =>
    simp only [List.cons_append, run_frames_cons] at hpre hf ⊢
    have hp : is_exiting (render_iteration ws p s) = false := by
      by_contra hne
      simp only [Bool.not_eq_false] at hne
      rw [run_frames_exiting ws ps _ hne] at hpre
      exact Bool.noConfusion hpre
    simp only [render_loop, hp]
    exact ih _ hpre hf

/-- C8 (amended): `xdg_surface_close` changes no state, so a close request
leaves the termination flag as it was.  The render loop ends at the first
iteration boundary at which `is_exiting()` holds, whoever raised the flag:
its final state is the state at that boundary, so that exactly one frame per
iteration up to the boundary has been submitted and none afterwards. -/
theorem close_request_leaves_flag (ws xdg_surface : Nat) (pre : List Frame) (f : Frame)
    (post : List Frame) (s : State)
    (hpre : is_exiting (run_frames ws pre s) = false)
    (hf : is_exiting (run_frames ws (pre ++ [f]) s) = true) :
    xdg_surface_close xdg_surface s = s ∧
    is_exiting (handle .close s) = is_exiting s ∧
    render_loop ws (pre ++ f :: post) s = (true, run_frames ws (pre ++ [f]) s) ∧
    submitted (render_loop ws (pre ++ f :: post) s).2.trace
      = submitted s.trace + pre.length + 1 := by
  have h := render_loop_breaks ws pre f post s hpre hf
  refine ⟨rfl, rfl, h, ?_⟩
  rw [h, run_frames_submitted]
  simp
  omega

/-- C8 (amended) for a close request in the first round trip and a
termination signal raised by another component in the second. -/
theorem close_request_leaves_flag_witness :
    is_exiting (run_frames 1 [⟨[.close], none⟩] rendering) = false ∧
    is_exiting (run_frames 1 ([⟨[.close], none⟩] ++ [⟨[], some 1⟩]) rendering) = true ∧
    submitted (render_loop 1 ([⟨[.close], none⟩] ++ ⟨[], some 1⟩ :: [⟨[], none⟩]) rendering).2.trace
      = submitted rendering.trace + [(⟨[.close], none⟩ : Frame)].length + 1 :=
  ⟨by decide, by decide,
    (close_request_leaves_flag 1 2 [⟨[.close], none⟩] ⟨[], some 1⟩ [⟨[], none⟩] rendering
      (by decide) (by decide)).2.2.2⟩

/-- C8 as stated fails: after a close request in the first round trip the
termination flag is still clear, the loop keeps running and two more frames
are submitted; in a whole run, three frames are submitted, the last two of
them after the close request. -/
theorem close_request_ignored :
    is_exiting rendering = false ∧
    is_exiting (xdg_surface_close rendering.xdg_surface rendering) = false ∧
    is_exiting (handle .close rendering) = false ∧
    (render_loop 1 [⟨[.close], none⟩, ⟨[], none⟩, ⟨[], none⟩] rendering).1 = false ∧
    submitted (render_loop 1 [⟨[.close], none⟩, ⟨[], none⟩, ⟨[], none⟩] rendering).2.trace
      = submitted rendering.trace + 3 ∧
    submitted (wayland_start env_all_ok State.initial).2.trace = 3 := by
  decide

/-! ## Registry binding and start-up -/

theorem deliver_cons (e : Event) (es : List Event) (s : State) :
    deliver (e :: es) s = deliver es (handle e s) := rfl

theorem global_unrecognised (name : Nat) (interface : String) (version : Nat) (s : State)
    (h : recognised interface = false) : global name interface version s = s := by
  simp [recognised] at h
  simp [global, h]

theorem global_effect (a : Advert) (s : State) :
    bind_requests (handle a.event s).trace
      = bind_requests s.trace ++ (if recognised a.interface then [a.request] else []) ∧
    (handle a.event s).wl_compositor
      = (if a.interface = wl_compositor_interface_name then some ⟨a.name, a.version⟩
         else s.wl_compositor) ∧
    (handle a.event s).wl_shm
      = (if a.interface = wl_shm_interface_name then some ⟨a.name, a.version⟩ else s.wl_shm) ∧
    (handle a.event s).xdg_shell
      = (if a.interface = xdg_shell_interface_name then some ⟨a.name, a.version⟩
         else s.xdg_shell) := by
  have d1 : wl_shm_interface_name ≠ wl_compositor_interface_name := by decide
  have d2 : xdg_shell_interface_name ≠ wl_compositor_interface_name := by decide
  have d3 : xdg_shell_interface_name ≠ wl_shm_interface_name := by decide
  by_cases h1 : a.interface = wl_compositor_interface_name
  · simp [Advert.event, handle, global, h1, recognised, bind_requests, Advert.request, d1.symm,
      d2.symm]
  · by_cases h2 : a.interface = wl_shm_interface_name
    · simp [Advert.event, handle, global, h2, recognised, bind_requests, Advert.request, d1,
        d3.symm]
    · by_cases h3 : a.interface = xdg_shell_interface_name
      · simp [Advert.event, handle, global, h3, recognised, bind_requests, Advert.request, d2,
          d3]
      · simp [Advert.event, handle, global, h1, h2, h3, recognised]

theorem rebound_cons (old : Option wl_proxy) (interface : String) (a : Advert)
    (ads : List Advert) :
    rebound old interface (a :: ads)
      = rebound (if a.interface = interface then some ⟨a.name, a.version⟩ else old)
          interface ads := by
  unfold rebound
  simp only [last_advertised]
  cases last_advertised interface ads with
  | some p => rfl
  | none => by_cases h : a.interface = interface <;> simp [h]

/-- C9 (amended): for every sequence of registry advertisements, `global`
issues one bind request for each advertisement of a recognised interface, in
order, and each of the three capability handles ends up bound to the name of
the last advertisement of its interface (unchanged when there was none); an
advertisement of an unrecognised interface changes nothing. -/
theorem global_binds_every_advertisement (ads : List Advert) (s : State) :
    bind_requests (deliver (ads.map Advert.event) s).trace
      = bind_requests s.trace ++ (ads.filter (fun a => recognised a.interface)).map Advert.request ∧
    (deliver (ads.map Advert.event) s).wl_compositor
      = rebound s.wl_compositor wl_compositor_interface_name ads ∧
    (deliver (ads.map Advert.event) s).wl_shm = rebound s.wl_shm wl_shm_interface_name ads ∧
    (deliver (ads.map Advert.event) s).xdg_shell
      = rebound s.xdg_shell xdg_shell_interface_name ads ∧
    ∀ (name : Nat) (interface : String) (version : Nat) (s0 : State),
      recognised interface = false → global name interface version s0 = s0 := by
  refine ⟨?_, ?_, ?_, ?_, global_unrecognised⟩
  all_goals
    induction ads generalizing s with
    | nil => simp [deliver, rebound, last_advertised]
    | cons a ads ih =>
      simp only [List.map_cons, deliver_cons]
      rw [ih]
      obtain ⟨g1, g2, g3, g4⟩ := global_effect a s
      first
        | rw [g1]; by_cases hr : recognised a.interface = true <;> simp [hr, List.filter_cons]
        | rw [g2, rebound_cons]
        | rw [g3, rebound_cons]
        | rw [g4, rebound_cons]

/-- C9 at a sequence with a duplicate and an unrecognised interface. -/
theorem global_binds_every_advertisement_witness :
    bind_requests (deliver
        ([⟨1, "wl_compositor", 3⟩, ⟨5, "wl_output", 2⟩, ⟨7, "wl_compositor", 3⟩].map
          Advert.event) State.initial).trace
      = [(1, "wl_compositor", 3), (7, "wl_compositor", 3)] ∧
    global 5 "wl_output" 2 State.initial = State.initial :=
  ⟨(global_binds_every_advertisement
      [⟨1, "wl_compositor", 3⟩, ⟨5, "wl_output", 2⟩, ⟨7, "wl_compositor", 3⟩] State.initial).1,
    (global_binds_every_advertisement [] State.initial).2.2.2.2 5 "wl_output" 2 State.initial
      (by decide)⟩

/-- C9 as stated fails: a second advertisement of `wl_compositor` issues a
second bind request and replaces the handle bound to the first. -/
theorem global_rebinds_duplicate :
    (deliver ([⟨1, "wl_compositor", 3⟩, ⟨7, "wl_compositor", 3⟩].map Advert.event)
        State.initial).wl_compositor = some ⟨7, 3⟩ ∧
    bind_requests (deliver ([⟨1, "wl_compositor", 3⟩, ⟨7, "wl_compositor", 3⟩].map Advert.event)
        State.initial).trace = [(1, "wl_compositor", 3), (7, "wl_compositor", 3)] ∧
    (handle (.global 7 "wl_compositor" 3) (handle (.global 1 "wl_compositor" 3) State.initial))
      ≠ handle (.global 1 "wl_compositor" 3) State.initial := by
  decide

/-- C5 at the failing input: when the allocation of `buffers[0]` succeeds and
`memfd_create` fails for `buffers[1]`, `wayland_start` returns without
entering `fini_buffer` for `buffers[0]`, whose descriptor and mapping stay
open; on the path through the render loop both buffers are released exactly
once and nothing stays open. -/
theorem wayland_start_leaks_first_buffer :
    (wayland_start env_second_allocation_fails State.initial).1 = Outcome.returned ∧
    init_buffer_calls 0 (wayland_start env_second_allocation_fails State.initial).2.trace = 1 ∧
    (wayland_start env_second_allocation_fails State.initial).2.buffers0.wl_buffer ≠ 0 ∧
    fini_buffer_calls 0 (wayland_start env_second_allocation_fails State.initial).2.trace = 0 ∧
    (wayland_start env_second_allocation_fails State.initial).2.fds = [3] ∧
    (wayland_start env_second_allocation_fails State.initial).2.maps = [(4096, 1228800)] ∧
    (wayland_start env_all_ok State.initial).1 = Outcome.returned ∧
    fini_buffer_calls 0 (wayland_start env_all_ok State.initial).2.trace = 1 ∧
    fini_buffer_calls 1 (wayland_start env_all_ok State.initial).2.trace = 1 ∧
    (wayland_start env_all_ok State.initial).2.fds = [] ∧
    (wayland_start env_all_ok State.initial).2.maps = [] := by
  decide

/-- C10 at the failing input: when `wl_shm` is not advertised,
`wayland_start` goes on after the diagnostic: it creates the surface, enters
`init_buffer`, opens a descriptor and maps it, and only then hands the `NULL`
allocator to libwayland; a failed connection, by contrast, makes it return at
once with the termination signal raised. -/
theorem wayland_start_continues_without_wl_shm :
    (wayland_start env_without_wl_shm State.initial).2.wl_shm = none ∧
    surfaces_created (wayland_start env_without_wl_shm State.initial).2.trace = 1 ∧
    init_buffer_calls 0 (wayland_start env_without_wl_shm State.initial).2.trace = 1 ∧
    memfd_calls (wayland_start env_without_wl_shm State.initial).2.trace = 1 ∧
    (wayland_start env_without_wl_shm State.initial).2.fds = [3] ∧
    (wayland_start env_without_wl_shm State.initial).2.maps = [(4096, 1228800)] ∧
    (wayland_start env_without_wl_shm State.initial).1 = Outcome.fault ∧
    (wayland_start env_no_display State.initial).1 = Outcome.returned ∧
    is_exiting (wayland_start env_no_display State.initial).2 = true ∧
    surfaces_created (wayland_start env_no_display State.initial).2.trace = 0 := by
  decide

end Wayland
